import Mathlib

/-!
Verification of the Session & Permission Gate of the pgo-web dashboard.

The definitions below are a shallow embedding of the TypeScript source:
* `src/lib/auth/permissions` — the static role/permission table and the
  wildcard matcher (`hasPermission`, `hasAnyPermission`, `hasAllPermissions`,
  `getRolePermissions`, `getRolesPermissions`);
* `src/lib/auth/dal/session.dal` — JWT encode/decode and the cookie store
  (`encryptSession`, `decryptSession`, `readSessionCookie`,
  `writeSessionCookie`, `deleteSessionCookie`);
* `src/lib/auth/services/auth.service` — `login`, `createSession`,
  `getSession`, `verifySession`, `getUserPermissions`;
* `src/proxy.ts` — the Route Gate (`proxy`);
* the change-password route's session rewrite.

JavaScript strings are modelled as Lean `String`; `string | undefined`
values as `Option String` with JS truthiness (`undefined` and `""` are
falsy); timestamps as `Nat` milliseconds.  The jose signing layer is
modelled symbolically: a signed token is a record of its claims, the key it
was signed with, and its signature-level `exp`; verification checks the key
and the signature-level expiry, exactly the two checks jose performs that
this code depends on.
-/

namespace PgoWeb

/-! ## JavaScript string helpers -/

/-- JS truthiness of a `string | undefined` value: `undefined` and `""` are falsy. -/
def strTruthy : Option String → Bool
  | none => false
  | some s => s != ""

/-- JS `a || b` for `a : string | undefined`, `b : string`. -/
def orElseStr (a : Option String) (b : String) : String :=
  match a with
  | none => b
  | some s => if s = "" then b else s

/-- `startsWith` on character lists (first argument is the string, second the pattern). -/
def listStartsWith : List Char → List Char → Bool
  | _, [] => true
  | [], _ :: _ => false
  | a :: as, b :: bs => a == b && listStartsWith as bs

/-- JS `s.startsWith(p)`. -/
def jsStartsWith (s p : String) : Bool :=
  listStartsWith s.data p.data

/-- JS `s.endsWith(p)`. -/
def jsEndsWith (s p : String) : Bool :=
  listStartsWith s.data.reverse p.data.reverse

/-- JS `s.slice(0, -2)`: drop the last two characters. -/
def jsSliceNeg2 (s : String) : String :=
  String.mk (s.data.take (s.data.length - 2))

/-! ## Permission table (`src/lib/auth/permissions`) -/

/-- `ROLE_PERMISSIONS` lookup with the `|| []` default for unknown roles.
The five static role entries are transcribed from the source table. -/
def ROLE_PERMISSIONS (role : String) : List String :=
  if role = "Super Administrator" then
    ["*"]
  else if role = "Administrator" then
    ["users.*", "transactions.*", "disbursements.*", "merchants.*",
     "roles.view", "audit_and_logs.view"]
  else if role = "Manager" then
    ["users.view", "transactions.*", "disbursements.view", "merchants.view",
     "merchants.update", "audit_and_logs.view"]
  else if role = "Operator" then
    ["transactions.view", "transactions.update_status", "disbursements.view",
     "merchants.view", "audit_and_logs.view"]
  else if role = "Viewer" then
    ["transactions.view", "disbursements.view", "merchants.view",
     "audit_and_logs.view"]
  else
    []

/-- `hasPermission(role, permission)`: superuser `"*"` short-circuit, exact
match, then the `.*` wildcard scan (`permission.startsWith(prefix + '.') ||
permission === prefix` after stripping the `.*` suffix). -/
def hasPermission (role : String) (permission : String) : Bool :=
  let permissions := ROLE_PERMISSIONS role
  permissions.contains "*" ||
  permissions.contains permission ||
  permissions.any (fun p =>
    if jsEndsWith p ".*" then
      jsStartsWith permission (jsSliceNeg2 p ++ ".") || permission == jsSliceNeg2 p
    else false)

/-- `hasAnyPermission(roles, permission)`: OR over the roles. -/
def hasAnyPermission (roles : List String) (permission : String) : Bool :=
  roles.any (fun role => hasPermission role permission)

/-- `hasAllPermissions(roles, permission)`: `roles.length > 0 && roles.every(...)`. -/
def hasAllPermissions (roles : List String) (permission : String) : Bool :=
  decide (roles.length > 0) && roles.all (fun role => hasPermission role permission)

/-- `getRolePermissions(role)`. -/
def getRolePermissions (role : String) : List String :=
  ROLE_PERMISSIONS role

/-- One `Set.add` step of `getRolesPermissions` (a JS `Set` keeps insertion
order and ignores duplicates). -/
def addPerm (acc : List String) (perm : String) : List String :=
  if acc.contains perm then acc else acc ++ [perm]

/-- `getRolesPermissions(roles)`: union of the roles' permission lists,
deduplicated through a `Set` in insertion order. -/
def getRolesPermissions (roles : List String) : List String :=
  roles.foldl (fun acc role => (getRolePermissions role).foldl addPerm acc) []

/-! ## Session data model (`src/lib/definitions.ts`, `src/lib/config/constants.ts`) -/

/-- `SessionPayload` from `lib/definitions.ts`.  Optional TS fields are
`Option`s; `expiresAt` is an `Option Nat` so that the gate's JS falsy check
(`!session.expiresAt`) can be modelled (absent and `0` are both falsy). -/
structure SessionPayload where
  userId : String
  uid : String
  token : String
  refreshToken : Option String
  username : String
  name : String
  email : String
  roles : List String
  userType : Option String
  requirePasswordChange : Option Bool
  expiresAt : Option Nat
  deriving DecidableEq, Repr

/-- JS truthiness of the `expiresAt` field (`undefined` and `0` are falsy). -/
def expiresAtTruthy : Option Nat → Bool
  | none => false
  | some n => n != 0

/-- Numeric value of `expiresAt` where the code reads it (only ever reached
behind a truthiness guard). -/
def expiresAtVal : Option Nat → Nat
  | none => 0
  | some n => n

/-- `SESSION.EXPIRY_MS` (5 hours) from `lib/config/constants.ts`. -/
def SESSION_EXPIRY_MS : Nat := 5 * 60 * 60 * 1000

/-- `JWT.EXPIRY_MS` (7 days, the `'7d'` signature-level expiry) from
`lib/config/constants.ts`. -/
def JWT_EXPIRY_MS : Nat := 7 * 24 * 60 * 60 * 1000

/-! ## Session codec (`src/lib/auth/dal/session.dal`) -/

/-- Modelled from the spec: a signed token of the jose library — §4.2 "signs
with a symmetric key …, stamps an issued-at claim, and sets a
signature-level expiry".  The token records its claims, the issued-at and
signature-level expiry, and the key that signed it; the cryptography is
symbolic (a signature verifies exactly when the keys agree). -/
structure Jwt where
  payload : SessionPayload
  iat : Nat
  exp : Nat
  signedWith : String
  deriving DecidableEq, Repr

/-- Modelled from the spec: jose's `SignJWT().setIssuedAt().setExpirationTime(…).sign(key)`. -/
def signJWT (payload : SessionPayload) (key : String) (now : Nat) (expiryMs : Nat) : Jwt :=
  { payload := payload, iat := now, exp := now + expiryMs, signedWith := key }

/-- Modelled from the spec: jose's `jwtVerify` — §4.2 "verifies signature and
signature-level expiry; on any failure (missing token, bad signature,
expired signature, malformed claims) returns null". -/
def jwtVerify (key : String) (now : Nat) (token : Option Jwt) : Option SessionPayload :=
  match token with
  | none => none
  | some t => if t.signedWith = key ∧ now < t.exp then some t.payload else none

/-- `encryptSession(payload)`: sign the payload with the `'7d'` signature-level expiry. -/
def encryptSession (key : String) (now : Nat) (payload : SessionPayload) : Jwt :=
  signJWT payload key now JWT_EXPIRY_MS

/-- `decryptSession(session)`: verify; `null` on any failure.  Note it checks
only the signature-level expiry, not the payload's `expiresAt`. -/
def decryptSession (key : String) (now : Nat) (session : Option Jwt) : Option SessionPayload :=
  jwtVerify key now session

/-! ## Session store adapter (cookie half of `session.dal`) -/

/-- The single `session` cookie slot: absent, or a token together with the
cookie-level expiry it was written with. -/
abbrev CookieStore := Option (Jwt × Nat)

/-- `readSessionCookie()`. -/
def readSessionCookie (st : CookieStore) : Option Jwt :=
  st.map Prod.fst

/-- `writeSessionCookie(sessionToken, expiresAt)`: full replacement of the slot. -/
def writeSessionCookie (sessionToken : Jwt) (expiresAt : Nat) (_st : CookieStore) : CookieStore :=
  some (sessionToken, expiresAt)

/-- `deleteSessionCookie()`. -/
def deleteSessionCookie (_st : CookieStore) : CookieStore :=
  none

/-! ## Session service (`src/lib/auth/services/auth.service.ts`) -/

/-- `SessionData` (the payload minus `expiresAt`), as both call sites of
`createSession` construct it. -/
structure SessionData where
  userId : String
  uid : String
  token : String
  refreshToken : Option String
  username : String
  name : String
  email : String
  roles : List String
  userType : Option String
  requirePasswordChange : Bool
  deriving DecidableEq, Repr

/-- `createSession(sessionData)`: `expiresAt = Date.now() + SESSION.EXPIRY_MS`,
spread into the payload, encrypt, write the cookie with that expiry. -/
def createSession (key : String) (now : Nat) (sessionData : SessionData) (st : CookieStore) :
    CookieStore :=
  let expiresAt := now + SESSION_EXPIRY_MS
  let sessionPayload : SessionPayload :=
    { userId := sessionData.userId
      uid := sessionData.uid
      token := sessionData.token
      refreshToken := sessionData.refreshToken
      username := sessionData.username
      name := sessionData.name
      email := sessionData.email
      roles := sessionData.roles
      userType := sessionData.userType
      requirePasswordChange := some sessionData.requirePasswordChange
      expiresAt := some expiresAt }
  let sessionToken := encryptSession key now sessionPayload
  writeSessionCookie sessionToken expiresAt st

/-- `getSession()`: read the cookie; `null` if absent; otherwise decrypt. -/
def getSession (key : String) (now : Nat) (st : CookieStore) : Option SessionPayload :=
  match readSessionCookie st with
  | none => none
  | some sessionCookie => decryptSession key now (some sessionCookie)

/-- Outcome of `verifySession()`: either the `redirect('/login')` escape or
the payload. -/
inductive VerifyResult where
  | redirectLogin : VerifyResult
  | ok : SessionPayload → VerifyResult
  deriving DecidableEq, Repr

/-- `verifySession()`: redirect when `!session?.userId`, redirect when
`session.expiresAt && session.expiresAt < Date.now()`, else return the session. -/
def verifySession (key : String) (now : Nat) (st : CookieStore) : VerifyResult :=
  match getSession key now st with
  | none => .redirectLogin
  | some session =>
    if session.userId = "" then .redirectLogin
    else if expiresAtTruthy session.expiresAt && decide (expiresAtVal session.expiresAt < now) then
      .redirectLogin
    else .ok session

/-- `getUserPermissions()`: `verifySession()` (an `.error` models its
redirect) then the roles' permission union; `[]` for empty roles. -/
def getUserPermissions (key : String) (now : Nat) (st : CookieStore) :
    Except Unit (List String) :=
  match verifySession key now st with
  | .redirectLogin => .error ()
  | .ok session =>
    if session.roles.length = 0 then .ok []
    else .ok (getRolesPermissions session.roles)

/-! ## Login (`auth.service.ts` `login`) -/

/-- The `data` object of the remote authentication API's response, with each
field that `login` reads (shape per spec §6; all fields may be absent). -/
structure AuthResponseData where
  token : Option String
  refreshToken : Option String
  uid : Option String
  id : Option String
  username : Option String
  name : Option String
  email : Option String
  roles : Option (List String)
  userType : Option String
  requirePasswordChange : Option Bool
  deriving DecidableEq, Repr

/-- The remote authentication API's response envelope `{status, message, data}`. -/
structure AuthApiResult where
  status : Bool
  message : Option String
  data : Option AuthResponseData
  deriving DecidableEq, Repr

/-- `LoginResult`: only the `requirePasswordChange` flag is returned. -/
structure LoginResult where
  requirePasswordChange : Bool
  deriving DecidableEq, Repr

/-- `login(credentials)`, parameterised by the backend's response: validation
failures throw (modelled as `.error` with the thrown message) and leave the
cookie store untouched; success builds the `SessionData` with the source's
defaulting (`name: data.name || data.username`, `email: data.email || ''`,
`roles: Array.isArray(...) ? ... : []`, `userId: data.id || data.uid || ''`,
`uid: data.uid || data.id || ''`) and calls `createSession`. -/
def login (key : String) (now : Nat) (apiResult : AuthApiResult) (st : CookieStore) :
    Except String LoginResult × CookieStore :=
  match apiResult.data with
  | none => (.error (orElseStr apiResult.message "Login failed"), st)
  | some data =>
    if !apiResult.status then
      (.error (orElseStr apiResult.message "Login failed"), st)
    else if !strTruthy data.token then
      (.error "No token received from server", st)
    else if !strTruthy data.uid && !strTruthy data.id then
      (.error "No user ID received from server", st)
    else if !strTruthy data.username then
      (.error "No username received from server", st)
    else
      let requirePasswordChange := data.requirePasswordChange.getD false
      let sessionData : SessionData :=
        { userId := orElseStr data.id (orElseStr data.uid "")
          uid := orElseStr data.uid (orElseStr data.id "")
          token := orElseStr data.token ""
          refreshToken := data.refreshToken
          username := orElseStr data.username ""
          name := orElseStr data.name (orElseStr data.username "")
          email := orElseStr data.email ""
          roles := data.roles.getD []
          userType := data.userType
          requirePasswordChange := requirePasswordChange }
      (.ok { requirePasswordChange := requirePasswordChange }, createSession key now sessionData st)

/-- The change-password route's session rewrite: every field copied from the
current session, `requirePasswordChange: false`. -/
def passwordChangeSessionData (session : SessionPayload) : SessionData :=
  { userId := session.userId
    uid := session.uid
    token := session.token
    refreshToken := session.refreshToken
    username := session.username
    name := session.name
    email := session.email
    roles := session.roles
    userType := session.userType
    requirePasswordChange := false }

/-! ## Route Gate (`src/proxy.ts`) -/

/-- Outcome of the Route Gate: `NextResponse.redirect(target)` or `NextResponse.next()`. -/
inductive ProxyDecision where
  | redirect : String → ProxyDecision
  | next : ProxyDecision
  deriving DecidableEq, Repr

/-- `publicRoutes` from `proxy.ts`. -/
def publicRoutes : List String := ["/login"]

/-- The gate's `isValidSession` check:
`session?.userId && (!session.expiresAt || session.expiresAt > Date.now())`. -/
def isValidSession (session : Option SessionPayload) (now : Nat) : Bool :=
  match session with
  | none => false
  | some s =>
    (s.userId != "") && (!expiresAtTruthy s.expiresAt || decide (expiresAtVal s.expiresAt > now))

/-- The Route Gate `proxy(req)`: decrypt the cookie, redirect protected paths
without a valid session to `/login`, redirect `/login` with a valid session
to `/dashboard`, otherwise `next()`. -/
def proxy (key : String) (now : Nat) (path : String) (cookie : Option Jwt) : ProxyDecision :=
  let isPublicRoute := publicRoutes.contains path
  let isProtected := !isPublicRoute
  let session := decryptSession key now cookie
  if isProtected && !isValidSession session now then
    .redirect "/login"
  else if isPublicRoute && isValidSession session now && (path == "/login") then
    .redirect "/dashboard"
  else
    .next

/-- Modelled from the spec: §4.5's definition of a valid session — "decodes
AND (`expiresAt` absent OR in the future)" — stated as written, for
comparison with the gate's own `isValidSession`. -/
def specValidSession (session : Option SessionPayload) (now : Nat) : Bool :=
  match session with
  | none => false
  | some s => s.expiresAt.isNone || decide (now < expiresAtVal s.expiresAt)

/-! ## Helper lemmas -/

theorem listStartsWith_nil (l : List Char) : listStartsWith l [] = true := by
  cases l <;> rfl

theorem listStartsWith_append (a b : List Char) : listStartsWith (a ++ b) a = true := by
  induction a with
  | nil => exact listStartsWith_nil b
  | cons c cs ih => simp [listStartsWith, ih]

theorem jsStartsWith_append (a b : String) : jsStartsWith (a ++ b) a = true := by
  unfold jsStartsWith
  rw [String.data_append]
  exact listStartsWith_append _ _

theorem jsEndsWith_dotStar (r : String) : jsEndsWith (r ++ ".*") ".*" = true := by
  unfold jsEndsWith
  rw [String.data_append, List.reverse_append]
  exact listStartsWith_append _ _

theorem jsSliceNeg2_dotStar (r : String) : jsSliceNeg2 (r ++ ".*") = r := by
  unfold jsSliceNeg2
  rw [String.data_append]
  have hlen : (r.data ++ ".*".data).length - 2 = r.data.length := by simp
  rw [hlen]
  have htake := List.take_left r.data (".*".data)
  rw [htake]

theorem hasPermission_wildcard_entry (role r perm : String)
    (h : (r ++ ".*") ∈ ROLE_PERMISSIONS role)
    (hm : (jsStartsWith perm (r ++ ".") || perm == r) = true) :
    hasPermission role perm = true := by
  unfold hasPermission
  simp only [Bool.or_eq_true]
  right
  rw [List.any_eq_true]
  refine ⟨r ++ ".*", h, ?_⟩
  simp only [jsEndsWith_dotStar, jsSliceNeg2_dotStar, if_true]
  exact hm

theorem mem_addPerm (acc : List String) (p x : String) :
    x ∈ addPerm acc p ↔ x ∈ acc ∨ x = p := by
  unfold addPerm
  by_cases hc : acc.contains p = true
  · have hp : p ∈ acc := List.elem_iff.mp hc
    rw [if_pos hc]
    constructor
    · exact Or.inl
    · rintro (h | rfl)
      · exact h
      · exact hp
  · rw [if_neg hc]
    simp [List.mem_append]

theorem mem_foldl_addPerm (l : List String) (acc : List String) (x : String) :
    x ∈ l.foldl addPerm acc ↔ x ∈ acc ∨ x ∈ l := by
  induction l generalizing acc with
  | nil => simp
  | cons p ps ih =>
    rw [List.foldl_cons, ih, mem_addPerm]
    simp only [List.mem_cons]
    tauto

theorem mem_getRolesPermissions_aux (roles : List String) (acc : List String) (x : String) :
    x ∈ roles.foldl (fun a role => (getRolePermissions role).foldl addPerm a) acc ↔
      x ∈ acc ∨ ∃ r ∈ roles, x ∈ getRolePermissions r := by
  induction roles generalizing acc with
  | nil => simp
  | cons r rs ih =>
    rw [List.foldl_cons, ih, mem_foldl_addPerm]
    simp only [List.mem_cons]
    constructor
    · rintro ((h | h) | ⟨r2, hr2, hx⟩)
      · exact Or.inl h
      · exact Or.inr ⟨r, Or.inl rfl, h⟩
      · exact Or.inr ⟨r2, Or.inr hr2, hx⟩
    · rintro (h | ⟨r2, hr2 | hr2, hx⟩)
      · exact Or.inl (Or.inl h)
      · subst hr2; exact Or.inl (Or.inr hx)
      · exact Or.inr ⟨r2, hr2, hx⟩

theorem mem_getRolesPermissions (roles : List String) (x : String) :
    x ∈ getRolesPermissions roles ↔ ∃ r ∈ roles, x ∈ getRolePermissions r := by
  unfold getRolesPermissions
  rw [mem_getRolesPermissions_aux]
  simp

theorem orElseStr_ne_empty (a : Option String) (b : String)
    (h : strTruthy a = true ∨ b ≠ "") : orElseStr a b ≠ "" := by
  cases a with
  | none =>
    rcases h with h | h
    · simp [strTruthy] at h
    · simpa [orElseStr] using h
  | some s =>
    by_cases hs : s = ""
    · subst hs
      rcases h with h | h
      · simp [strTruthy] at h
      · simpa [orElseStr] using h
    · simp [orElseStr, hs]

theorem orElseStr_falsy (a : Option String) (b : String)
    (h : strTruthy a = false) : orElseStr a b = b := by
  cases a with
  | none => rfl
  | some s =>
    have hs : s = "" := by
      by_contra hne
      simp [strTruthy, hne] at h
    simp [orElseStr, hs]

/-- The payload `createSession` builds from a `SessionData` and the computed
absolute expiry. -/
def sessionPayloadOf (sd : SessionData) (expiresAt : Nat) : SessionPayload :=
  { userId := sd.userId
    uid := sd.uid
    token := sd.token
    refreshToken := sd.refreshToken
    username := sd.username
    name := sd.name
    email := sd.email
    roles := sd.roles
    userType := sd.userType
    requirePasswordChange := some sd.requirePasswordChange
    expiresAt := some expiresAt }

/-- The `SessionData` literal `login` constructs on its success path. -/
def loginSessionData (d : AuthResponseData) : SessionData :=
  { userId := orElseStr d.id (orElseStr d.uid "")
    uid := orElseStr d.uid (orElseStr d.id "")
    token := orElseStr d.token ""
    refreshToken := d.refreshToken
    username := orElseStr d.username ""
    name := orElseStr d.name (orElseStr d.username "")
    email := orElseStr d.email ""
    roles := d.roles.getD []
    userType := d.userType
    requirePasswordChange := d.requirePasswordChange.getD false }

theorem getSession_createSession (key : String) (now now2 : Nat) (sd : SessionData)
    (st : CookieStore) (h : now2 < now + JWT_EXPIRY_MS) :
    getSession key now2 (createSession key now sd st) =
      some (sessionPayloadOf sd (now + SESSION_EXPIRY_MS)) := by
  unfold getSession createSession writeSessionCookie readSessionCookie
  unfold decryptSession jwtVerify encryptSession signJWT sessionPayloadOf
  simp [h]

theorem verifySession_createSession (key : String) (now now2 : Nat) (sd : SessionData)
    (st : CookieStore) (huid : sd.userId ≠ "") (h2 : now2 ≤ now + SESSION_EXPIRY_MS) :
    verifySession key now2 (createSession key now sd st) =
      .ok (sessionPayloadOf sd (now + SESSION_EXPIRY_MS)) := by
  have hjwt : now2 < now + JWT_EXPIRY_MS := by
    unfold SESSION_EXPIRY_MS at h2
    unfold JWT_EXPIRY_MS
    omega
  unfold verifySession
  rw [getSession_createSession key now now2 sd st hjwt]
  have hexp : decide (expiresAtVal (sessionPayloadOf sd (now + SESSION_EXPIRY_MS)).expiresAt < now2) = false := by
    simp only [sessionPayloadOf, expiresAtVal, decide_eq_false_iff_not]
    omega
  simp [sessionPayloadOf, huid, hexp]
  intro _
  simpa [expiresAtVal] using h2

/-! ## Claim theorems -/

/-- C3: for every role whose permission list contains an entry `resource.*`,
`hasPermission` grants `resource` itself and every permission starting with
`resource.`; the wildcard does not leak across prefixes: `Administrator`
(holding `users.*`) is denied the adjacent-prefix permission `userss.view`,
and `Manager` (holding `transactions.*`) is denied `users.create`. -/
theorem wildcard_permission_matching :
    (∀ role resource : String,
      (ROLE_PERMISSIONS role).contains (resource ++ ".*") = true →
      hasPermission role resource = true ∧
      ∀ s : String, hasPermission role (resource ++ "." ++ s) = true) ∧
    hasPermission "Administrator" "userss.view" = false ∧
    hasPermission "Manager" "users.create" = false := by
  refine ⟨?_, by decide, by decide⟩
  intro role resource h
  have hmem : (resource ++ ".*") ∈ ROLE_PERMISSIONS role := List.elem_iff.mp h
  constructor
  · exact hasPermission_wildcard_entry role resource resource hmem (by simp)
  · intro s
    exact hasPermission_wildcard_entry role resource (resource ++ "." ++ s) hmem
      (by simp [jsStartsWith_append (resource ++ ".") s])

/-- C3 witness: the wildcard theorem instantiated at role `Manager` (which
holds `transactions.*`) and resource `transactions`. -/
theorem wildcard_permission_matching_witness :
    hasPermission "Manager" "transactions" = true ∧
    hasPermission "Manager" ("transactions" ++ "." ++ "create") = true :=
  ⟨(wildcard_permission_matching.1 "Manager" "transactions" (by decide)).1,
   (wildcard_permission_matching.1 "Manager" "transactions" (by decide)).2 "create"⟩

/-- C4: an empty role list yields no permissions — `hasAnyPermission([], p)`
is false, and `hasAllPermissions([], p)` is false rather than vacuously true
(the `roles.length > 0 &&` guard). -/
theorem empty_roles_no_permissions (p : String) :
    hasAnyPermission [] p = false ∧ hasAllPermissions [] p = false :=
  ⟨rfl, rfl⟩

/-- C9: any role whose permission list contains the global wildcard `"*"`
passes `hasPermission` for every permission string; in the static table that
role is `Super Administrator`, which is granted even a permission string
never declared in the permission constants. -/
theorem superuser_wildcard_all_permissions :
    (∀ role p : String, (ROLE_PERMISSIONS role).contains "*" = true →
      hasPermission role p = true) ∧
    (ROLE_PERMISSIONS "Super Administrator").contains "*" = true ∧
    hasPermission "Super Administrator" "never.declared.capability" = true := by
  refine ⟨?_, by decide, by decide⟩
  intro role p h
  have hmem : "*" ∈ ROLE_PERMISSIONS role := List.elem_iff.mp h
  unfold hasPermission
  simp [hmem]

/-- C9 witness: the superuser theorem instantiated at `Super Administrator`
and an undeclared permission string. -/
theorem superuser_wildcard_all_permissions_witness :
    hasPermission "Super Administrator" "made.up.permission.xyz" = true :=
  superuser_wildcard_all_permissions.1 "Super Administrator" "made.up.permission.xyz"
    (by decide)

/-- C5: round-trip — for any payload whose `expiresAt` lies in the future,
decoding the token produced by encoding it returns a payload equal to the
original in every field (the conclusion is equality of the whole
`SessionPayload` record). -/
theorem session_roundtrip (key : String) (now e : Nat) (p : SessionPayload)
    (he : p.expiresAt = some e) (hf : now < e) :
    decryptSession key now (some (encryptSession key now p)) = some p := by
  unfold decryptSession jwtVerify encryptSession signJWT
  have hexp : now < now + JWT_EXPIRY_MS := by
    unfold JWT_EXPIRY_MS
    omega
  simp [hexp]

/-- C5 witness: the round-trip theorem applied to a concrete payload that
expires at time 1 (in the future of time 0). -/
theorem session_roundtrip_witness :
    decryptSession "k" 0
      (some (encryptSession "k" 0
        { userId := "u1", uid := "u1", token := "t1", refreshToken := none,
          username := "alice", name := "alice", email := "", roles := ["Viewer"],
          userType := none, requirePasswordChange := some false, expiresAt := some 1 })) =
      some
        { userId := "u1", uid := "u1", token := "t1", refreshToken := none,
          username := "alice", name := "alice", email := "", roles := ["Viewer"],
          userType := none, requirePasswordChange := some false, expiresAt := some 1 } :=
  session_roundtrip "k" 0 1 _ rfl (by decide)

/-- C7: recreating the session through `createSession` with the field copy
the password-change route builds (same fields, `requirePasswordChange:
false`) yields, at any later read before the signature-level expiry, a
session whose flag is cleared while `token`, `roles`, `username`, `email`,
`uid`, `userId` are unchanged and `expiresAt` is `now + SESSION.EXPIRY_MS`. -/
theorem createSession_clears_flag_preserves_fields
    (key : String) (now now2 : Nat) (p : SessionPayload) (st : CookieStore)
    (hflag : p.requirePasswordChange = some true)
    (hread : now2 < now + JWT_EXPIRY_MS) :
    ∃ q, getSession key now2 (createSession key now (passwordChangeSessionData p) st) = some q ∧
      q.requirePasswordChange = some false ∧
      q.token = p.token ∧ q.roles = p.roles ∧ q.username = p.username ∧
      q.email = p.email ∧ q.uid = p.uid ∧ q.userId = p.userId ∧
      q.expiresAt = some (now + SESSION_EXPIRY_MS) := by
  refine ⟨{ userId := p.userId, uid := p.uid, token := p.token,
            refreshToken := p.refreshToken, username := p.username, name := p.name,
            email := p.email, roles := p.roles, userType := p.userType,
            requirePasswordChange := some false,
            expiresAt := some (now + SESSION_EXPIRY_MS) },
          ?_, rfl, rfl, rfl, rfl, rfl, rfl, rfl, rfl⟩
  unfold getSession createSession writeSessionCookie readSessionCookie
  unfold decryptSession jwtVerify encryptSession signJWT passwordChangeSessionData
  simp [hread]

/-- C7 witness: the password-change session rewrite applied to a concrete
session that had `requirePasswordChange = true`. -/
theorem createSession_clears_flag_preserves_fields_witness :
    ∃ q, getSession "k" 1
        (createSession "k" 1
          (passwordChangeSessionData
            { userId := "u1", uid := "u1", token := "t1", refreshToken := none,
              username := "alice", name := "alice", email := "a@b.c",
              roles := ["Viewer"], userType := none,
              requirePasswordChange := some true, expiresAt := some 9 })
          none) = some q ∧
      q.requirePasswordChange = some false ∧
      q.token = "t1" ∧ q.roles = ["Viewer"] ∧ q.username = "alice" ∧
      q.email = "a@b.c" ∧ q.uid = "u1" ∧ q.userId = "u1" ∧
      q.expiresAt = some (1 + SESSION_EXPIRY_MS) :=
  createSession_clears_flag_preserves_fields "k" 1 1
    { userId := "u1", uid := "u1", token := "t1", refreshToken := none,
      username := "alice", name := "alice", email := "a@b.c",
      roles := ["Viewer"], userType := none,
      requirePasswordChange := some true, expiresAt := some 9 }
    none rfl (by decide)

/-- C10: session validity at the public interface additionally requires a
truthy `userId` — a token that decodes and is unexpired but whose payload
has an empty `userId` is rejected: the Route Gate redirects protected-path
requests to `/login`, and `verifySession` redirects instead of returning the
payload. -/
theorem invalid_userId_session_rejected
    (key : String) (now : Nat) (t : Jwt) (st : CookieStore) (s : SessionPayload) (path : String)
    (hdec : decryptSession key now (some t) = some s)
    (huid : s.userId = "")
    (hexp : s.expiresAt = none ∨ ∃ e, s.expiresAt = some e ∧ now < e)
    (hpath : publicRoutes.contains path = false)
    (hget : getSession key now st = some s) :
    proxy key now path (some t) = .redirect "/login" ∧
    verifySession key now st = .redirectLogin := by
  have hnm : path ∉ publicRoutes := by
    intro hm
    have hc2 : publicRoutes.contains path = true := List.elem_iff.mpr hm
    rw [hc2] at hpath
    exact absurd hpath (by decide)
  constructor
  · have hval : isValidSession (decryptSession key now (some t)) now = false := by
      rw [hdec]
      simp [isValidSession, huid]
    simp [proxy, hnm, hval]
  · unfold verifySession
    rw [hget]
    simp [huid]

/-- Concrete data for the C10 witness: an unexpired token whose payload has
an empty `userId`. -/
def c10Payload : SessionPayload :=
  { userId := "", uid := "", token := "t3", refreshToken := none,
    username := "carol", name := "carol", email := "", roles := [],
    userType := none, requirePasswordChange := none, expiresAt := some 500 }

def c10Token : Jwt :=
  { payload := c10Payload, iat := 0, exp := JWT_EXPIRY_MS, signedWith := "k" }

/-- C10 witness: the rejection theorem applied to the concrete empty-`userId`
token at time 0 on the protected path `/dashboard`. -/
theorem invalid_userId_session_rejected_witness :
    proxy "k" 0 "/dashboard" (some c10Token) = .redirect "/login" ∧
    verifySession "k" 0 (some (c10Token, 500)) = .redirectLogin :=
  invalid_userId_session_rejected "k" 0 c10Token (some (c10Token, 500)) c10Payload "/dashboard"
    rfl rfl (Or.inr ⟨500, rfl, by decide⟩) (by decide) rfl

/-- Concrete data for the C1 counterexample: a payload whose `expiresAt = 1`
will be long past while the signature-level (7-day) expiry still verifies. -/
def c1Payload : SessionPayload :=
  { userId := "u1", uid := "u1", token := "t1", refreshToken := none,
    username := "alice", name := "alice", email := "", roles := [],
    userType := none, requirePasswordChange := none, expiresAt := some 1 }

def c1Token : Jwt :=
  { payload := c1Payload, iat := 0, exp := JWT_EXPIRY_MS, signedWith := "k" }

/-- C1 counterexample: at time 1000 the payload's `expiresAt = 1` lies in the
past, yet `getSession` returns the payload rather than `null` — decryption
checks only the signature-level expiry, never the payload's `expiresAt`. -/
theorem getSession_expired_payload_counterexample :
    c1Payload.expiresAt = some 1 ∧ 1 < 1000 ∧
    getSession "k" 1000 (some (c1Token, 1)) = some c1Payload :=
  ⟨rfl, by decide, rfl⟩

/-- C1 (amended): for every session payload whose `expiresAt` is a nonzero
timestamp in the past but which still decodes (signature-level expiry not yet
reached), the Route Gate treats the request as having no session — protected
paths redirect to `/login` and `/login` passes through without the
`/dashboard` redirect — and `verifySession` redirects to `/login`; but
`getSession` itself returns the payload, not `null`: the payload-level
expiry is enforced by the Route Gate and `verifySession`, not `getSession`. -/
theorem expired_payload_gate_and_getSession
    (key : String) (now e : Nat) (st : CookieStore) (s : SessionPayload) (path : String)
    (hget : getSession key now st = some s)
    (he : s.expiresAt = some e) (he0 : 0 < e) (hpast : e < now)
    (hpath : publicRoutes.contains path = false) :
    getSession key now st ≠ none ∧
    verifySession key now st = .redirectLogin ∧
    proxy key now path (readSessionCookie st) = .redirect "/login" ∧
    proxy key now "/login" (readSessionCookie st) = .next := by
  obtain ⟨⟨t, cexp⟩, hst⟩ : ∃ c, st = some c := by
    cases st with
    | none => exact absurd hget (by simp [getSession, readSessionCookie])
    | some c => exact ⟨c, rfl⟩
  subst hst
  have hdec : decryptSession key now (some t) = some s := hget
  have hval : isValidSession (decryptSession key now (some t)) now = false := by
    rw [hdec]
    simp only [isValidSession, expiresAtTruthy, expiresAtVal, he]
    have h1 : (e != 0) = true := by
      simp only [bne_iff_ne, ne_eq]
      omega
    have h2 : decide (e > now) = false := by
      simp only [decide_eq_false_iff_not]
      omega
    simp [h1, h2]
  refine ⟨by rw [hget]; simp, ?_, ?_, ?_⟩
  · unfold verifySession
    rw [hget]
    by_cases hu : s.userId = ""
    · simp [hu]
    · have h1 : expiresAtTruthy s.expiresAt = true := by
        simp only [he, expiresAtTruthy, bne_iff_ne, ne_eq]
        omega
      have h2 : decide (expiresAtVal s.expiresAt < now) = true := by
        simp only [he, expiresAtVal, decide_eq_true_eq]
        omega
      simp [hu, h1, h2]
  · have hnm : path ∉ publicRoutes := by
      intro hm
      have hc2 : publicRoutes.contains path = true := List.elem_iff.mpr hm
      rw [hc2] at hpath
      exact absurd hpath (by decide)
    simp [proxy, readSessionCookie, hnm, hval]
  · have hmemL : "/login" ∈ publicRoutes := by decide
    simp [proxy, readSessionCookie, hmemL, hval]

/-- C1 witness: the amended theorem applied to the concrete expired-payload
token at time 1000 on the protected path `/dashboard`. -/
theorem expired_payload_gate_and_getSession_witness :
    getSession "k" 1000 (some (c1Token, 1)) ≠ none ∧
    verifySession "k" 1000 (some (c1Token, 1)) = .redirectLogin ∧
    proxy "k" 1000 "/dashboard" (readSessionCookie (some (c1Token, 1))) = .redirect "/login" ∧
    proxy "k" 1000 "/login" (readSessionCookie (some (c1Token, 1))) = .next :=
  expired_payload_gate_and_getSession "k" 1000 1 (some (c1Token, 1)) c1Payload "/dashboard"
    rfl rfl (by decide) (by decide) (by decide)

/-- Concrete data for the C2 counterexample: a token that decodes, with
`expiresAt` far in the future, but with an empty `userId`. -/
def c2Payload : SessionPayload :=
  { userId := "", uid := "", token := "t2", refreshToken := none,
    username := "bob", name := "bob", email := "", roles := [],
    userType := none, requirePasswordChange := none,
    expiresAt := some JWT_EXPIRY_MS }

def c2Token : Jwt :=
  { payload := c2Payload, iat := 0, exp := JWT_EXPIRY_MS, signedWith := "k" }

/-- C2 counterexample: this token decodes and its `expiresAt` is in the
future, so the session is valid under the claim's definition of validity
(`specValidSession`); the claim then requires the protected path
`/dashboard` to pass through unmodified — but the gate redirects it to
`/login`, because the code additionally requires a truthy `userId`. -/
theorem proxy_spec_valid_counterexample :
    decryptSession "k" 0 (some c2Token) = some c2Payload ∧
    specValidSession (decryptSession "k" 0 (some c2Token)) 0 = true ∧
    publicRoutes.contains "/dashboard" = false ∧
    proxy "k" 0 "/dashboard" (some c2Token) = .redirect "/login" :=
  ⟨rfl, by decide, by decide, by decide⟩

/-- C2 (amended): with session validity as the code defines it — the cookie
decodes AND the payload's `userId` is truthy (non-empty) AND (`expiresAt`
falsy OR in the future) — the gate redirects protected paths without a valid
session to `/login`, redirects `/login` with a valid session to
`/dashboard`, and passes every other combination through unmodified. -/
theorem proxy_redirect_cases (key : String) (now : Nat) (path : String) (cookie : Option Jwt) :
    (path ≠ "/login" →
      isValidSession (decryptSession key now cookie) now = false →
      proxy key now path cookie = .redirect "/login") ∧
    (path = "/login" →
      isValidSession (decryptSession key now cookie) now = true →
      proxy key now path cookie = .redirect "/dashboard") ∧
    (path = "/login" →
      isValidSession (decryptSession key now cookie) now = false →
      proxy key now path cookie = .next) ∧
    (path ≠ "/login" →
      isValidSession (decryptSession key now cookie) now = true →
      proxy key now path cookie = .next) := by
  by_cases hp : path = "/login"
  · subst hp
    have hmemL : "/login" ∈ publicRoutes := by decide
    refine ⟨fun h => absurd rfl h, fun _ hv => ?_, fun _ hv => ?_, fun h => absurd rfl h⟩
    · simp [proxy, hmemL, hv]
    · simp [proxy, hmemL, hv]
  · have hnm : path ∉ publicRoutes := by
      intro hm
      rcases List.mem_singleton.mp hm with h
      exact hp h
    refine ⟨fun _ hv => ?_, fun h => absurd h hp, fun h => absurd h hp, fun _ hv => ?_⟩
    · simp [proxy, hnm, hv]
    · simp [proxy, hnm, hv, hp]

/-- C2 witness: the amended gate theorem applied concretely — a protected
path with no cookie redirects to `/login`; `/login` with no cookie passes
through; `/login` with the session of `c1Token` at time 0 (nonempty
`userId`, `expiresAt = 1` still in the future) redirects to `/dashboard`. -/
theorem proxy_redirect_cases_witness :
    proxy "k" 0 "/dashboard" none = .redirect "/login" ∧
    proxy "k" 0 "/login" none = .next ∧
    proxy "k" 0 "/login" (some c1Token) = .redirect "/dashboard" :=
  ⟨(proxy_redirect_cases "k" 0 "/dashboard" none).1 (by decide) rfl,
   (proxy_redirect_cases "k" 0 "/login" none).2.2.1 rfl rfl,
   (proxy_redirect_cases "k" 0 "/login" (some c1Token)).2.1 rfl (by decide)⟩

/-- C6: whenever the backend response has a falsy `status`, missing `data`,
or is missing any of token, user id (both `id` and `uid` falsy), or
username, `login` fails with the backend's message (or a generic fallback)
and the cookie store is returned unchanged — no session cookie is written. -/
theorem login_failure_no_cookie
    (key : String) (now : Nat) (apiResult : AuthApiResult) (st : CookieStore)
    (h : apiResult.status = false ∨ apiResult.data = none ∨
      ∃ d, apiResult.data = some d ∧
        (strTruthy d.token = false ∨
         (strTruthy d.uid = false ∧ strTruthy d.id = false) ∨
         strTruthy d.username = false)) :
    ∃ msg, login key now apiResult st = (.error msg, st) ∧
      (msg = orElseStr apiResult.message "Login failed" ∨
       msg = "No token received from server" ∨
       msg = "No user ID received from server" ∨
       msg = "No username received from server") := by
  by_cases hs : apiResult.status = true
  · rcases h with h | hnone | ⟨d, hd, hfield⟩
    · rw [hs] at h
      cases h
    · refine ⟨orElseStr apiResult.message "Login failed", ?_, Or.inl rfl⟩
      unfold login
      rw [hnone]
    · by_cases htok : strTruthy d.token = true
      · by_cases hids : (!strTruthy d.uid && !strTruthy d.id) = true
        · refine ⟨"No user ID received from server", ?_, Or.inr (Or.inr (Or.inl rfl))⟩
          unfold login
          rw [hd, hs]
          simp [htok, hids]
        · have husr : strTruthy d.username = false := by
            rcases hfield with htok2 | ⟨huid, hid⟩ | husr
            · rw [htok] at htok2
              cases htok2
            · exact absurd (by rw [huid, hid]; rfl) hids
            · exact husr
          refine ⟨"No username received from server", ?_, Or.inr (Or.inr (Or.inr rfl))⟩
          unfold login
          rw [hd, hs]
          simp [htok, hids, husr]
      · have htokF : strTruthy d.token = false := by
          revert htok
          cases strTruthy d.token <;> simp
        refine ⟨"No token received from server", ?_, Or.inr (Or.inl rfl)⟩
        unfold login
        rw [hd, hs]
        simp [htokF]
  · have hsF : apiResult.status = false := by
      revert hs
      cases apiResult.status <;> simp
    refine ⟨orElseStr apiResult.message "Login failed", ?_, Or.inl rfl⟩
    unfold login
    cases hdata : apiResult.data with
    | none => rfl
    | some d =>
      rw [hsF]
      rfl

/-- C6 witness: the failure theorem applied to the spec's scenario — backend
returns `{status: false, message: "Invalid credentials"}` — showing the
error carries the backend's message and the cookie store stays empty. -/
theorem login_failure_no_cookie_witness :
    ∃ msg, login "k" 0
        { status := false, message := some "Invalid credentials",
          data := some
            { token := some "t1", refreshToken := none, uid := some "u1",
              id := none, username := some "alice", name := none, email := none,
              roles := none, userType := none, requirePasswordChange := none } }
        none = (.error msg, none) ∧
      (msg = orElseStr (some "Invalid credentials") "Login failed" ∨
       msg = "No token received from server" ∨
       msg = "No user ID received from server" ∨
       msg = "No username received from server") :=
  login_failure_no_cookie "k" 0
    { status := false, message := some "Invalid credentials",
      data := some
        { token := some "t1", refreshToken := none, uid := some "u1",
          id := none, username := some "alice", name := none, email := none,
          roles := none, userType := none, requirePasswordChange := none } }
    none (Or.inl rfl)

/-- C8: a successful login (truthy status, token, user id in either field,
username) creates a session whose `name` falls back to the username when the
backend's `name` is falsy, `email` to `""`, `roles` to `[]`; both `userId`
and `uid` are non-empty by the `id`/`uid` coalescing; and a later
`getUserPermissions` (before expiry) returns exactly the union of the static
permission lists of the session's roles. -/
theorem login_success_defaults_and_permissions
    (key : String) (now now2 : Nat) (apiResult : AuthApiResult) (d : AuthResponseData)
    (st : CookieStore)
    (hd : apiResult.data = some d) (hs : apiResult.status = true)
    (htok : strTruthy d.token = true)
    (hid : strTruthy d.uid = true ∨ strTruthy d.id = true)
    (husr : strTruthy d.username = true)
    (hread : now2 ≤ now + SESSION_EXPIRY_MS) :
    ∃ q perms,
      login key now apiResult st =
        (.ok { requirePasswordChange := d.requirePasswordChange.getD false },
         createSession key now (loginSessionData d) st) ∧
      getSession key now2 (createSession key now (loginSessionData d) st) = some q ∧
      (strTruthy d.name = false → q.name = orElseStr d.username "") ∧
      (strTruthy d.email = false → q.email = "") ∧
      (d.roles = none → q.roles = []) ∧
      q.userId ≠ "" ∧ q.uid ≠ "" ∧ q.roles = d.roles.getD [] ∧
      getUserPermissions key now2 (createSession key now (loginSessionData d) st) = .ok perms ∧
      (∀ x, x ∈ perms ↔ ∃ r ∈ q.roles, x ∈ getRolePermissions r) := by
  have hjwt : now2 < now + JWT_EXPIRY_MS := by
    unfold SESSION_EXPIRY_MS at hread
    unfold JWT_EXPIRY_MS
    omega
  have htokF : (!strTruthy d.token) = false := by rw [htok]; rfl
  have husrF : (!strTruthy d.username) = false := by rw [husr]; rfl
  have hidsF : (!strTruthy d.uid && !strTruthy d.id) = false := by
    rcases hid with h | h <;> rw [h] <;> simp
  have huserId : orElseStr d.id (orElseStr d.uid "") ≠ "" := by
    rcases hid with h | h
    · exact orElseStr_ne_empty _ _ (Or.inr (orElseStr_ne_empty _ _ (Or.inl h)))
    · exact orElseStr_ne_empty _ _ (Or.inl h)
  have huid2 : orElseStr d.uid (orElseStr d.id "") ≠ "" := by
    rcases hid with h | h
    · exact orElseStr_ne_empty _ _ (Or.inl h)
    · exact orElseStr_ne_empty _ _ (Or.inr (orElseStr_ne_empty _ _ (Or.inl h)))
  refine ⟨sessionPayloadOf (loginSessionData d) (now + SESSION_EXPIRY_MS),
    if (loginSessionData d).roles.length = 0 then []
    else getRolesPermissions (loginSessionData d).roles,
    ?_, ?_, ?_, ?_, ?_, ?_, ?_, ?_, ?_, ?_⟩
  · unfold login
    rw [hd, hs]
    simp only [Bool.not_true, Bool.false_eq_true, if_false, htokF, husrF, hidsF]
    rfl
  · exact getSession_createSession key now now2 (loginSessionData d) st hjwt
  · intro hn
    simp only [sessionPayloadOf, loginSessionData]
    exact orElseStr_falsy _ _ hn
  · intro hn
    simp only [sessionPayloadOf, loginSessionData]
    exact orElseStr_falsy _ _ hn
  · intro hr
    simp [sessionPayloadOf, loginSessionData, hr]
  · exact huserId
  · exact huid2
  · rfl
  · unfold getUserPermissions
    rw [verifySession_createSession key now now2 (loginSessionData d) st huserId hread]
    by_cases hr0 : (loginSessionData d).roles.length = 0
    · simp [sessionPayloadOf, hr0]
    · simp [sessionPayloadOf, hr0]
  · intro x
    by_cases hr0 : (loginSessionData d).roles.length = 0
    · have hnil : (loginSessionData d).roles = [] := List.length_eq_zero.mp hr0
      simp [sessionPayloadOf, hr0, hnil]
    · rw [if_neg hr0]
      simpa [sessionPayloadOf] using mem_getRolesPermissions (loginSessionData d).roles x

/-- C8 witness: the spec's scenario — backend returns `{status: true, data:
{token: "t1", uid: "u1", username: "alice", roles: ["Viewer"]}}` — applied
through the success theorem. -/
theorem login_success_defaults_and_permissions_witness :
    ∃ q perms,
      login "k" 0
          { status := true, message := none,
            data := some
              { token := some "t1", refreshToken := none, uid := some "u1",
                id := none, username := some "alice", name := none, email := none,
                roles := some ["Viewer"], userType := none,
                requirePasswordChange := none } }
          none =
        (.ok { requirePasswordChange := false },
         createSession "k" 0
           (loginSessionData
             { token := some "t1", refreshToken := none, uid := some "u1",
               id := none, username := some "alice", name := none, email := none,
               roles := some ["Viewer"], userType := none,
               requirePasswordChange := none })
           none) ∧
      getSession "k" 0
          (createSession "k" 0
            (loginSessionData
              { token := some "t1", refreshToken := none, uid := some "u1",
                id := none, username := some "alice", name := none, email := none,
                roles := some ["Viewer"], userType := none,
                requirePasswordChange := none })
            none) = some q ∧
      (strTruthy none = false → q.name = orElseStr (some "alice") "") ∧
      (strTruthy none = false → q.email = "") ∧
      ((some ["Viewer"] : Option (List String)) = none → q.roles = []) ∧
      q.userId ≠ "" ∧ q.uid ≠ "" ∧ q.roles = (some ["Viewer"] : Option (List String)).getD [] ∧
      getUserPermissions "k" 0
          (createSession "k" 0
            (loginSessionData
              { token := some "t1", refreshToken := none, uid := some "u1",
                id := none, username := some "alice", name := none, email := none,
                roles := some ["Viewer"], userType := none,
                requirePasswordChange := none })
            none) = .ok perms ∧
      (∀ x, x ∈ perms ↔ ∃ r ∈ q.roles, x ∈ getRolePermissions r) :=
  login_success_defaults_and_permissions "k" 0 0
    { status := true, message := none,
      data := some
        { token := some "t1", refreshToken := none, uid := some "u1",
          id := none, username := some "alice", name := none, email := none,
          roles := some ["Viewer"], userType := none, requirePasswordChange := none } }
    { token := some "t1", refreshToken := none, uid := some "u1",
      id := none, username := some "alice", name := none, email := none,
      roles := some ["Viewer"], userType := none, requirePasswordChange := none }
    none rfl rfl (by decide) (Or.inl (by decide)) (by decide) (by decide)

end PgoWeb
